import Mathlib

/-!
Verification of the shopvac pod-cleanup system: a shallow embedding of the
sweep tool (`src/client/bin/main.rs`) and the controller
(`src/controller/bin/main.rs`), with theorems checking the specified
behaviour of the selector filter, the dry-run short circuit, the resource
template builder, the requeue policy, the timeout parser and the
bounded-concurrency delete fan-out.

Timestamps are modelled as whole seconds (`Int`), matching the second
granularity of the claims; `chrono`'s `Duration::num_days` on a whole-second
duration is truncating division of the seconds by 86400, which is `Int.tdiv`.
A panic (an `unwrap` of `None`) is modelled as `Except.error ()`.
-/

namespace Shopvac

instance {ε α : Type} [DecidableEq ε] [DecidableEq α] : DecidableEq (Except ε α) := fun x y =>
  match x, y with
  | .error a, .error b =>
    if h : a = b then .isTrue (by rw [h]) else .isFalse (by simp [h])
  | .error _, .ok _ => .isFalse (by simp)
  | .ok _, .error _ => .isFalse (by simp)
  | .ok a, .ok b =>
    if h : a = b then .isTrue (by rw [h]) else .isFalse (by simp [h])

/-- Listed pod metadata as the sweep reads it: `metadata.namespace`,
`metadata.name` and `metadata.creation_timestamp` (seconds). The namespace
and the creation timestamp can be absent on the wire; the sweep unwraps the
namespace and merely skips a pod without a timestamp. -/
structure PodMeta where
  ns : Option String
  name : String
  creationTimestamp : Option Int
deriving DecidableEq

/-- Substring occurrence test on character lists: `listContainsSub pat hay`
is true when `pat` occurs contiguously somewhere in `hay`. -/
def listContainsSub (pat : List Char) : List Char → Bool
  | [] => pat.isEmpty
  | c :: t => pat.isPrefixOf (c :: t) || listContainsSub pat t

/-- Substring occurrence test on strings. -/
def strContainsSub (s pat : String) : Bool := listContainsSub pat.data s.data

/-- Semantics of `Regex::new("(openshift.*)|(kube.*)").is_match(ns)` from the
sweep source: `is_match` searches unanchored, and since each alternative is a
literal followed by `.*` (which may match the empty string), a haystack
matches exactly when it contains `"openshift"` or `"kube"` as a substring. -/
def defaultExcludeMatch (ns : String) : Bool :=
  strContainsSub ns "openshift" || strContainsSub ns "kube"

/-- Modelled from the spec: the namespace-exclusion pattern interpreted as
"a regular expression anchored against the full namespace string", i.e. the
whole namespace must be in the language of `(openshift.*)|(kube.*)` (the
string starts with one of the literals and `.*` consumes the remainder, so
the remainder may not contain a newline). Used only to compare the spec's
anchored reading with the source's unanchored `is_match`. -/
def anchoredExcludeMatch (ns : String) : Bool :=
  ("openshift".data.isPrefixOf ns.data && (ns.data.drop 9).all (fun c => !(c == '\n')))
    || ("kube".data.isPrefixOf ns.data && (ns.data.drop 4).all (fun c => !(c == '\n')))

/-- Age of a pod in whole days, as the sweep computes it:
`(now - creation_timestamp).num_days()`, truncating division of the
duration in seconds by 86400 (`i64` division truncates toward zero). -/
def numDays (now ct : Int) : Int := Int.tdiv (now - ct) 86400

/-- The sweep's selection pass over the listed pods, in list order, from
`src/client/bin/main.rs` lines 84-110: every pod's namespace is unwrapped
(panic, modelled `Except.error ()`, when absent), pods whose namespace
matches the exclusion regex are dropped, pods without a creation timestamp
are skipped, and a remaining pod's name is collected exactly when its age in
whole days is strictly greater than `olderThan`. -/
def scanPods (excl : String → Bool) (olderThan now : Int) :
    List PodMeta → Except Unit (List String)
  | [] => .ok []
  | p :: rest =>
    match p.ns with
    | none => .error ()
    | some n =>
      if excl n then scanPods excl olderThan now rest
      else
        match p.creationTimestamp with
        | none => scanPods excl olderThan now rest
        | some ct =>
          if olderThan < numDays now ct then
            match scanPods excl olderThan now rest with
            | .error e => .error e
            | .ok l => .ok (p.name :: l)
          else scanPods excl olderThan now rest

/-- Outcome of one sweep pass: the reported count (`bad_pods.len()`, logged
unconditionally) and the list of pod names a delete call is issued for, in
submission order. -/
structure SweepResult where
  reported : Nat
  deleteCalls : List String
deriving DecidableEq

/-- The sweep driver: list (given), filter, then either fan out deletes over
the whole batch (`--actually-delete` set) or report only (dry run, the
default). -/
def sweep (actuallyDelete : Bool) (excl : String → Bool) (olderThan now : Int)
    (pods : List PodMeta) : Except Unit SweepResult :=
  match scanPods excl olderThan now pods with
  | .error e => .error e
  | .ok bad => .ok ⟨bad.length, if actuallyDelete then bad else []⟩

example : scanPods defaultExcludeMatch 3 500000 [⟨some "default", "p", some 0⟩] =
    .ok ["p"] := by decide

example : scanPods defaultExcludeMatch 3 500000 [⟨some "kube-system", "p", some 0⟩] =
    .ok [] := by decide

example : scanPods defaultExcludeMatch 3 259201 [⟨some "default", "p", some 0⟩] =
    .ok [] := by decide

/-- Owner reference generated by `controller_owner_ref`: the identity of the
owning `PodCleaner` instance (name and uid). -/
structure OwnerRef where
  name : String
  uid : String
deriving DecidableEq

/-- Object metadata of a `PodCleaner` instance as the reconciler reads it:
`metadata.namespace`, `metadata.name` and `metadata.uid`, each possibly
absent. -/
structure MetaIdent where
  ns : Option String
  name : Option String
  uid : Option String
deriving DecidableEq

/-- The custom resource's spec from `src/controller/bin/main.rs`:
`schedule`, `delete_older_than` (an `i8`, modelled `Int`), and the two
optional selectors. -/
structure PodCleanerSpec where
  schedule : String
  delete_older_than : Int
  label_selector : Option String
  field_selector : Option String
deriving DecidableEq

/-- A `PodCleaner` custom resource instance: identity metadata plus spec. -/
structure PodCleaner where
  metadata : MetaIdent
  spec : PodCleanerSpec
deriving DecidableEq

/-- Semantics of kube's `controller_owner_ref`: it needs both
`metadata.name` and `metadata.uid` and returns `None` when either is
absent. -/
def controllerOwnerRef (g : PodCleaner) : Option OwnerRef :=
  match g.metadata.name, g.metadata.uid with
  | some n, some u => some ⟨n, u⟩
  | _, _ => none

/-- The argument list the reconciler builds for the sweep container
(`src/controller/bin/main.rs` lines 164-188): `--actually-delete`, then
`-n <namespace>`, then `-l <label_selector>` when present, then
`-f <field_selector>` when present, then `--older-than <delete_older_than>`. -/
def buildArgs (ns : String) (spec : PodCleanerSpec) : List String :=
  ["--actually-delete", "-n", ns]
    ++ (match spec.label_selector with | some ls => ["-l", ls] | none => [])
    ++ (match spec.field_selector with | some fs => ["-f", fs] | none => [])
    ++ ["--older-than", toString spec.delete_older_than]

/-- The parts of the generated CronJob the spec talks about: its name, its
namespace, its owner references, its cron schedule and the container
arguments. -/
structure CronJobDesc where
  name : String
  ns : Option String
  ownerReferences : List OwnerRef
  schedule : String
  args : List String
deriving DecidableEq

/-- Construction of the schedule object from an instance
(`src/controller/bin/main.rs` lines 191-223): name
`<instance-name>-clean-job`, the instance's namespace, a single controller
owner reference, the spec's schedule and the built argument list. Returns
`none` exactly when the source would panic, i.e. when an `unwrap` of the
name, uid or (earlier, via `?`) the namespace fails. -/
def buildCronJob (g : PodCleaner) : Option CronJobDesc :=
  match g.metadata.ns, g.metadata.name, g.metadata.uid with
  | some ns, some n, some u =>
    some ⟨n ++ "-clean-job", some ns, [⟨n, u⟩], g.spec.schedule, buildArgs ns g.spec⟩
  | _, _, _ => none

/-- The reconciler's error type (`enum Error` in the controller source);
`CronJobSpecError` is declared but never constructed. -/
inductive RErr where
  | missingObjectKey (key : String)
  | cronJobCreationFailed
deriving DecidableEq

/-- Result of one reconcile invocation: a returned requeue action (delay in
seconds), a returned error handed to the requeue policy, or a panic
(an `unwrap` of `None`), which unwinds out of the control loop. -/
inductive ReconcileResult where
  | ok (requeueSeconds : Nat)
  | err (e : RErr)
  | panic
deriving DecidableEq

/-- Outcome of each of the three server-side-apply patch calls the
reconciler makes (`true` = the API accepted the patch); the reconcile model
is a pure function of the instance and these outcomes. -/
structure ApiBehavior where
  saPatchOk : Bool
  rbPatchOk : Bool
  cjPatchOk : Bool
deriving DecidableEq

/-- The reconciler (`src/controller/bin/main.rs` lines 77-248), in source
order: the service-account API handle is built first, returning
`Error::MissingObjectKey(".metadata.namespace")` when the instance has no
namespace; then the service-account value is built, unwrapping
`controller_owner_ref` (panic when name or uid is absent); each of the
three patches maps an API failure to `Error::CronJobCreationFailed`; on
success the reconciler requeues after 300 seconds. -/
def reconcile (api : ApiBehavior) (g : PodCleaner) : ReconcileResult :=
  match g.metadata.ns with
  | none => .err (.missingObjectKey ".metadata.namespace")
  | some _ =>
    match controllerOwnerRef g with
    | none => .panic
    | some _ =>
      if !api.saPatchOk then .err .cronJobCreationFailed
      else if !api.rbPatchOk then .err .cronJobCreationFailed
      else
        match buildCronJob g with
        | none => .panic
        | some _ =>
          if !api.cjPatchOk then .err .cronJobCreationFailed
          else .ok 300

/-- The requeue policy for failed reconciles (`error_policy` in the
controller source): every error requeues after 1 second, independent of the
error's kind. -/
def errorPolicy (_e : RErr) : Nat := 1

example : reconcile ⟨true, true, true⟩
    ⟨⟨some "ci", some "inst", some "u1"⟩, ⟨"0 * * * *", 3, some "app=build", none⟩⟩ =
    .ok 300 := by decide

example : buildCronJob
    ⟨⟨some "ci", some "inst", some "u1"⟩, ⟨"0 * * * *", 3, some "app=build", none⟩⟩ =
    some ⟨"inst-clean-job", some "ci", [⟨"inst", "u1"⟩], "0 * * * *",
      ["--actually-delete", "-n", "ci", "-l", "app=build", "--older-than", "3"]⟩ := by decide

/-- Whitespace characters for the regex class `\s` (the ASCII ones; the
claims and defaults use none beyond ASCII). -/
def wsChar (c : Char) : Bool :=
  c == ' ' || c == '\t' || c == '\n' || c == '\r' || c == '\x0b' || c == '\x0c'

/-- ASCII decimal digit test for the regex class `\d`. -/
def digitChar (c : Char) : Bool := '0' ≤ c && c ≤ '9'

/-- Splits a character list into its maximal leading digit run and the
remainder (the `(\d+)` capture group). -/
def takeDigits : List Char → (List Char × List Char)
  | [] => ([], [])
  | c :: cs =>
    if digitChar c then
      let p := takeDigits cs
      (c :: p.1, p.2)
    else ([], c :: cs)

/-- Numeric value of a digit run. -/
def digitsToNat (ds : List Char) : Nat :=
  ds.foldl (fun a c => a * 10 + (c.toNat - 48)) 0

/-- The captured unit suffix of a timeout string. -/
inductive TimeUnit where
  | ms
  | s
  | m
deriving DecidableEq

/-- Reads the optional `(ms|s|m)?` group at the front of the remainder; the
alternation is deterministic here because whatever follows the group must be
whitespace, so a leading `"ms"` can only be the `ms` alternative. -/
def takeUnit : List Char → Option TimeUnit × List Char
  | 'm' :: 's' :: r => (some .ms, r)
  | 's' :: r => (some .s, r)
  | 'm' :: r => (some .m, r)
  | r => (none, r)

/-- The digit run captured by `(\d+)` after the leading whitespace. -/
def timeoutMag (str : String) : List Char :=
  (takeDigits (str.data.dropWhile wsChar)).1

/-- What remains of the string after the leading whitespace and digits. -/
def timeoutRest (str : String) : List Char :=
  (takeDigits (str.data.dropWhile wsChar)).2

/-- Whether a string matches the controller's timeout pattern
`^\s*(\d+)(ms|s|m)?\s*$`: optional leading whitespace, at least one digit,
an optional unit suffix, optional trailing whitespace. -/
def matchesTimeoutPattern (str : String) : Bool :=
  !(timeoutMag str).isEmpty && ((takeUnit (timeoutRest str)).2.all wsChar)

/-- The duration, in milliseconds, for a parsed magnitude and optional unit
(the `match` at the end of `Timeout::from_str`): a bare magnitude is
accepted only when it is zero, `ms` means milliseconds, `s` seconds and `m`
minutes (the `u64` multiply by 60 wraps modulo `2^64`). -/
def timeoutValue (u : Option TimeUnit) (mag : Nat) : Option Nat :=
  match u with
  | none => if mag = 0 then some 0 else none
  | some .ms => some mag
  | some .s => some (mag * 1000)
  | some .m => some (mag * 60 % 2 ^ 64 * 1000)

/-- The controller's `Timeout::from_str` (`src/controller/bin/main.rs` lines
320-336), returning the parsed duration in milliseconds: the string must
match the pattern, the magnitude must parse as a `u64` (values of `2^64` or
more fail the parse), and the magnitude/unit pair must be accepted by the
final `match`. -/
def timeoutFromStr (str : String) : Option Nat :=
  if (timeoutMag str).isEmpty then none
  else if (takeUnit (timeoutRest str)).2.all wsChar then
    if digitsToNat (timeoutMag str) < 2 ^ 64 then
      timeoutValue (takeUnit (timeoutRest str)).1 (digitsToNat (timeoutMag str))
    else none
  else none

example : timeoutFromStr "10s" = some 10000 := by decide
example : timeoutFromStr "10" = none := by decide
example : matchesTimeoutPattern "10" = true := by decide
example : timeoutFromStr " 250ms " = some 250 := by decide
example : timeoutFromStr "2m" = some 120000 := by decide
example : timeoutFromStr "0" = some 0 := by decide
example : timeoutFromStr "5x" = none := by decide

/-- State of the delete fan-out (`stream::iter(..).buffer_unordered(10)`):
the identities not yet submitted, in submission order; the calls currently
outstanding; and the completed calls, most recent first. -/
structure FanoutState where
  pending : List String
  inflight : List String
  completed : List String
deriving DecidableEq

/-- Small-step semantics of `buffer_unordered(limit)` over the batch: a new
delete call starts, in submission order, only while fewer than `limit` calls
are outstanding; any outstanding call may complete, in any order. -/
inductive FanoutStep (limit : Nat) : FanoutState → FanoutState → Prop
  | start (n : String) (rest fl c : List String) :
      fl.length < limit →
      FanoutStep limit ⟨n :: rest, fl, c⟩ ⟨rest, n :: fl, c⟩
  | finish (p : List String) (fl₁ : List String) (n : String) (fl₂ c : List String) :
      FanoutStep limit ⟨p, fl₁ ++ n :: fl₂, c⟩ ⟨p, fl₁ ++ fl₂, n :: c⟩

/-- The executions of one fan-out over `batch`: every state reachable from
the initial state (whole batch pending, nothing outstanding). -/
def FanoutReachable (limit : Nat) (batch : List String) (st : FanoutState) : Prop :=
  Relation.ReflTransGen (FanoutStep limit) ⟨batch, [], []⟩ st

theorem scanPods_singleton (excl : String → Bool) (olderThan now ct : Int)
    (name n : String) (hn : excl n = false) :
    scanPods excl olderThan now [⟨some n, name, some ct⟩] =
      if olderThan < numDays now ct then .ok [name] else .ok [] := by
  simp [scanPods, hn]

theorem scanPods_cons_excluded (excl : String → Bool) (olderThan now : Int)
    (name n : String) (ct : Option Int) (rest : List PodMeta) (hn : excl n = true) :
    scanPods excl olderThan now (⟨some n, name, ct⟩ :: rest) =
      scanPods excl olderThan now rest := by
  simp [scanPods, hn]

theorem scanPods_sublist (excl : String → Bool) (olderThan now : Int) :
    ∀ (pods : List PodMeta) (l : List String),
      scanPods excl olderThan now pods = .ok l → l.Sublist (pods.map PodMeta.name) := by
  intro pods
  induction pods with
  | nil =>
    intro l h
    simp only [scanPods] at h
    cases h
    simp
  | cons p rest ih =>
    intro l h
    unfold scanPods at h
    cases hns : p.ns with
    | none => rw [hns] at h; exact absurd h (by simp)
    | some n =>
      rw [hns] at h
      dsimp only at h
      by_cases he : excl n
      · rw [if_pos he] at h
        exact (ih l h).trans (List.sublist_cons_self _ _)
      · rw [if_neg he] at h
        cases hct : p.creationTimestamp with
        | none =>
          rw [hct] at h
          dsimp only at h
          exact (ih l h).trans (List.sublist_cons_self _ _)
        | some ct =>
          rw [hct] at h
          dsimp only at h
          by_cases hage : olderThan < numDays now ct
          · rw [if_pos hage] at h
            cases hrec : scanPods excl olderThan now rest with
            | error e =>
              rw [hrec] at h
              exact absurd h (by simp)
            | ok l' =>
              rw [hrec] at h
              have hl : l = p.name :: l' := by
                cases h
                rfl
              rw [hl, List.map_cons]
              exact List.Sublist.cons₂ _ (ih l' hrec)
          · rw [if_neg hage] at h
            exact (ih l h).trans (List.sublist_cons_self _ _)

/-- C3: with the actually-delete flag absent (dry run, the default), the
sweep computes the batch, issues zero delete calls, and reports a count
equal to the selection size — for every pod list whose selection is
nonempty. -/
theorem c3_dry_run_short_circuit (excl : String → Bool) (olderThan now : Int)
    (pods : List PodMeta) (bad : List String)
    (hscan : scanPods excl olderThan now pods = .ok bad) (_hne : bad ≠ []) :
    sweep false excl olderThan now pods = .ok ⟨bad.length, []⟩ := by
  simp [sweep, hscan]

/-- Witness for C3 at a concrete old pod in namespace `default`. -/
theorem c3_dry_run_short_circuit_witness :
    sweep false defaultExcludeMatch 3 500000 [⟨some "default", "p", some 0⟩] =
      .ok ⟨1, []⟩ :=
  c3_dry_run_short_circuit defaultExcludeMatch 3 500000
    [⟨some "default", "p", some 0⟩] ["p"] (by decide) (by decide)

/-- C5: for every instance named `nm` with uid `uid` in namespace `ci`,
`deleteOlderThanDays = 3`, `labelSelector = "app=build"` and no
`fieldSelector`, the template builder generates exactly the arguments
`["--actually-delete", "-n", "ci", "-l", "app=build", "--older-than", "3"]`
in that order (the absent field selector is omitted, not passed as an empty
string), and a schedule object named `<instance-name>-clean-job` carrying a
single owner reference to that instance. -/
theorem c5_template_builder (nm uid sched : String) :
    buildCronJob ⟨⟨some "ci", some nm, some uid⟩, ⟨sched, 3, some "app=build", none⟩⟩ =
      some ⟨nm ++ "-clean-job", some "ci", [⟨nm, uid⟩], sched,
        ["--actually-delete", "-n", "ci", "-l", "app=build", "--older-than", "3"]⟩ := rfl

/-- C10: a listed pod whose metadata lacks a namespace makes the sweep's
filter panic (the unconditional `unwrap` during the namespace-exclusion
check), whatever its creation timestamp and whatever follows it in the
list — whereas a pod lacking only a creation timestamp is skipped and the
scan continues. -/
theorem c10_missing_namespace_panics (olderThan now : Int) (name : String)
    (ct : Option Int) (rest : List PodMeta) (n : String)
    (hn : defaultExcludeMatch n = false) :
    scanPods defaultExcludeMatch olderThan now (⟨none, name, ct⟩ :: rest) = .error () ∧
    scanPods defaultExcludeMatch olderThan now (⟨some n, name, none⟩ :: rest) =
      scanPods defaultExcludeMatch olderThan now rest := by
  constructor
  · rfl
  · simp [scanPods, hn]

/-- Witness for C10: the concrete namespace-less pod panics even though it
is brand new, and the concrete timestamp-less pod in `default` is skipped. -/
theorem c10_missing_namespace_panics_witness :
    scanPods defaultExcludeMatch 3 0 [⟨none, "p", some 0⟩] = .error () ∧
    scanPods defaultExcludeMatch 3 0 [⟨some "default", "p", none⟩] =
      scanPods defaultExcludeMatch 3 0 [] :=
  c10_missing_namespace_panics 3 0 "p" (some 0) [] "default" (by decide)

/-- C1 counterexample: with threshold 3, a pod created exactly 3×24h + 1s
(259201 s) before `now` is NOT selected, because its age truncated to whole
days is still 3 and the filter requires strictly more than 3 — the claim
says such a pod IS selected. -/
theorem c1_boundary_counterexample :
    scanPods defaultExcludeMatch 3 259201 [⟨some "default", "p", some 0⟩] = .ok [] ∧
    numDays 259201 0 = 3 := by
  constructor
  · decide
  · decide

/-- C1 (amended): with threshold 3, a pod with a creation timestamp in a
non-excluded namespace is selected iff its age truncated to whole days is
strictly greater than 3; a pod created exactly 3×24h before `now` is not
selected, a pod created 3×24h + 1s before `now` is also not selected (its
truncated age is still 3 days), and a pod created 4×24h before `now` is
selected. -/
theorem c1_age_filter (now ct : Int) (name n : String)
    (hn : defaultExcludeMatch n = false) :
    (scanPods defaultExcludeMatch 3 now [⟨some n, name, some ct⟩] = .ok [name] ↔
      3 < numDays now ct) ∧
    scanPods defaultExcludeMatch 3 now [⟨some n, name, some (now - 259200)⟩] = .ok [] ∧
    scanPods defaultExcludeMatch 3 now [⟨some n, name, some (now - 259201)⟩] = .ok [] ∧
    scanPods defaultExcludeMatch 3 now [⟨some n, name, some (now - 345600)⟩] =
      .ok [name] := by
  have hd : ∀ k : Int, numDays now (now - k) = Int.tdiv k 86400 := by
    intro k
    unfold numDays
    rw [sub_sub_cancel]
  refine ⟨?_, ?_, ?_, ?_⟩
  · rw [scanPods_singleton defaultExcludeMatch 3 now ct name n hn]
    constructor
    · intro h
      by_contra hlt
      rw [if_neg hlt] at h
      exact absurd h (by simp)
    · intro h
      rw [if_pos h]
  · rw [scanPods_singleton defaultExcludeMatch 3 now _ name n hn, hd 259200]
    norm_num
    decide
  · rw [scanPods_singleton defaultExcludeMatch 3 now _ name n hn, hd 259201]
    norm_num
    decide
  · rw [scanPods_singleton defaultExcludeMatch 3 now _ name n hn, hd 345600]
    norm_num
    decide

/-- Witness for C1 (amended) at namespace `default`, `now = 500000` and a
pod created at time 0. -/
theorem c1_age_filter_witness :
    (scanPods defaultExcludeMatch 3 500000 [⟨some "default", "p", some 0⟩] = .ok ["p"] ↔
      3 < numDays 500000 0) ∧
    scanPods defaultExcludeMatch 3 500000 [⟨some "default", "p", some (500000 - 259200)⟩] =
      .ok [] ∧
    scanPods defaultExcludeMatch 3 500000 [⟨some "default", "p", some (500000 - 259201)⟩] =
      .ok [] ∧
    scanPods defaultExcludeMatch 3 500000 [⟨some "default", "p", some (500000 - 345600)⟩] =
      .ok ["p"] :=
  c1_age_filter 500000 0 "p" "default" (by decide)

/-- C2 counterexample: the namespace `my-kube-apps` does not match the
exclusion pattern anchored against the full namespace string, yet an old pod
in it is excluded — because the source uses `Regex::is_match`, which
searches unanchored. -/
theorem c2_anchoring_counterexample :
    scanPods defaultExcludeMatch 3 500000 [⟨some "my-kube-apps", "p", some 0⟩] = .ok [] ∧
    anchoredExcludeMatch "my-kube-apps" = false ∧
    3 < numDays 500000 0 := by
  refine ⟨?_, ?_, ?_⟩
  · decide
  · decide
  · decide

/-- C2 (amended): a pod is excluded iff its namespace contains a match of
the exclusion pattern anywhere (unanchored `is_match`), which for the
default pattern means containing `openshift` or `kube` as a substring; a pod
in `kube-system` is excluded regardless of age, and a pod in `default` is
not exempt. -/
theorem c2_namespace_exclusion (n name : String) :
    (defaultExcludeMatch n = true ↔
      ∀ now ct : Int,
        scanPods defaultExcludeMatch 3 now [⟨some n, name, some ct⟩] = .ok []) ∧
    (∀ now ct : Int,
      scanPods defaultExcludeMatch 3 now [⟨some "kube-system", name, some ct⟩] = .ok []) ∧
    defaultExcludeMatch "default" = false ∧
    scanPods defaultExcludeMatch 3 500000 [⟨some "default", name, some 0⟩] =
      .ok [name] := by
  have hexcl : ∀ m : String, defaultExcludeMatch m = true →
      ∀ now ct : Int,
        scanPods defaultExcludeMatch 3 now [⟨some m, name, some ct⟩] = .ok [] := by
    intro m hm now ct
    rw [scanPods_cons_excluded defaultExcludeMatch 3 now name m (some ct) [] hm]
    rfl
  refine ⟨⟨fun h => hexcl n h, ?_⟩, hexcl "kube-system" (by decide), by decide, ?_⟩
  · intro h
    by_contra hfalse
    have hn : defaultExcludeMatch n = false := by
      cases hdm : defaultExcludeMatch n
      · rfl
      · exact absurd hdm hfalse
    have h4 : numDays 345600 0 = 4 := by decide
    have := h 345600 0
    rw [scanPods_singleton defaultExcludeMatch 3 345600 0 name n hn, h4] at this
    norm_num at this
  · rw [scanPods_singleton defaultExcludeMatch 3 500000 0 name "default" (by decide)]
    have h5 : numDays 500000 0 = 5 := by decide
    rw [h5]
    norm_num

/-- Witness for C2 (amended): the concrete facts at `kube-system` and
`default`. -/
theorem c2_namespace_exclusion_witness :
    scanPods defaultExcludeMatch 3 400000 [⟨some "kube-system", "p", some 0⟩] = .ok [] ∧
    defaultExcludeMatch "default" = false ∧
    scanPods defaultExcludeMatch 3 500000 [⟨some "default", "p", some 0⟩] = .ok ["p"] :=
  ⟨(c2_namespace_exclusion "kube-system" "p").2.1 400000 0,
   (c2_namespace_exclusion "default" "p").2.2.1,
   (c2_namespace_exclusion "default" "p").2.2.2⟩

/-- C4 counterexample: an instance whose namespace and uid are present but
whose `metadata.name` is absent makes `reconcile` panic (the `unwrap` of
`controller_owner_ref`) instead of returning an error for the requeue
policy — refuting the claim that every missing-identity defect is a
retried error and never fatal. -/
theorem c4_missing_name_counterexample :
    reconcile ⟨true, true, true⟩
      ⟨⟨some "ci", none, some "u1"⟩, ⟨"0 * * * *", 3, none, none⟩⟩ = .panic := by
  decide

/-- C4 (amended): an instance missing `metadata.namespace` makes `reconcile`
return `MissingObjectKey(".metadata.namespace")`, which the requeue policy
retries after the short 1-second delay; but an instance whose namespace is
present and whose `metadata.name` or `uid` is absent makes `reconcile`
panic instead — that defect is not turned into a retried error. -/
theorem c4_missing_metadata (api : ApiBehavior) (g : PodCleaner) :
    (g.metadata.ns = none →
      reconcile api g = .err (.missingObjectKey ".metadata.namespace") ∧
      errorPolicy (.missingObjectKey ".metadata.namespace") = 1) ∧
    (g.metadata.ns ≠ none → controllerOwnerRef g = none →
      reconcile api g = .panic) := by
  constructor
  · intro h
    constructor
    · unfold reconcile
      rw [h]
    · rfl
  · intro h1 h2
    unfold reconcile
    cases hns : g.metadata.ns with
    | none => exact absurd hns h1
    | some ns =>
      rw [h2]

/-- Witness for C4 (amended): a concrete namespace-less instance is turned
into the retried error, and a concrete uid-less instance panics. -/
theorem c4_missing_metadata_witness :
    (reconcile ⟨true, true, true⟩ ⟨⟨none, some "i", some "u"⟩, ⟨"s", 3, none, none⟩⟩ =
      .err (.missingObjectKey ".metadata.namespace") ∧
      errorPolicy (.missingObjectKey ".metadata.namespace") = 1) ∧
    reconcile ⟨true, true, true⟩ ⟨⟨some "ci", some "i", none⟩, ⟨"s", 3, none, none⟩⟩ =
      .panic :=
  ⟨(c4_missing_metadata ⟨true, true, true⟩
      ⟨⟨none, some "i", some "u"⟩, ⟨"s", 3, none, none⟩⟩).1 rfl,
   (c4_missing_metadata ⟨true, true, true⟩
      ⟨⟨some "ci", some "i", none⟩, ⟨"s", 3, none, none⟩⟩).2 (by simp) rfl⟩

/-- C6 counterexample: in all-namespaces mode, two old pods named `worker`
in the distinct namespaces `ns-a` and `ns-b` are both selected and the
batch collects only pod names, so it contains the duplicate entry `worker`
twice — the DeletionBatch does not have set semantics over (namespace,
name) identity. -/
theorem c6_duplicates_counterexample :
    scanPods defaultExcludeMatch 3 500000
      [⟨some "ns-a", "worker", some 0⟩, ⟨some "ns-b", "worker", some 0⟩] =
      .ok ["worker", "worker"] ∧
    ¬ (["worker", "worker"] : List String).Nodup := by
  constructor
  · decide
  · decide

/-- C6 (amended): the batch produced by one sweep pass is a list of pod
names only (namespace is not part of the collected identity), a sublist of
the listed pods' names; it is duplicate-free whenever the listed pods have
pairwise-distinct names — as in single-namespace mode — but same-named pods
in different namespaces yield duplicate entries. -/
theorem c6_batch_nodup (excl : String → Bool) (olderThan now : Int)
    (pods : List PodMeta) (l : List String)
    (h : scanPods excl olderThan now pods = .ok l)
    (hnames : (pods.map PodMeta.name).Nodup) : l.Nodup :=
  (hnames.sublist (scanPods_sublist excl olderThan now pods l h))

/-- Witness for C6 (amended) at two distinct-named old pods. -/
theorem c6_batch_nodup_witness : (["w1", "w2"] : List String).Nodup :=
  c6_batch_nodup defaultExcludeMatch 3 500000
    [⟨some "ns-a", "w1", some 0⟩, ⟨some "ns-b", "w2", some 0⟩] ["w1", "w2"]
    (by decide) (by decide)

/-- C7: every successful reconcile requeues after the fixed long delay of
300 seconds, every failed reconcile is requeued by the policy after the
fixed short delay of 1 second independent of the error's kind, and the
failure delay is strictly shorter than the success delay. -/
theorem c7_requeue_policy :
    (∀ (api : ApiBehavior) (g : PodCleaner) (t : Nat),
      reconcile api g = .ok t → t = 300) ∧
    (∀ e : RErr, errorPolicy e = 1) ∧
    (∀ e : RErr, errorPolicy e < 300) := by
  refine ⟨?_, fun _ => rfl, fun _ => by norm_num [errorPolicy]⟩
  intro api g t h
  unfold reconcile at h
  repeat' split at h
  all_goals first
  | (cases h; rfl)
  | exact absurd h (by simp)

/-- Witness for C7: a fully successful reconcile of a concrete well-formed
instance indeed requeues after 300 seconds, and a concrete error requeues
after 1 second. -/
theorem c7_requeue_policy_witness :
    (300 : Nat) = 300 ∧ errorPolicy .cronJobCreationFailed = 1 :=
  ⟨c7_requeue_policy.1 ⟨true, true, true⟩
      ⟨⟨some "ci", some "i", some "u"⟩, ⟨"s", 3, none, none⟩⟩ 300 (by decide),
   c7_requeue_policy.2.1 .cronJobCreationFailed⟩

/-- C8 counterexample: the string `10` matches the pattern
`^\s*(\d+)(ms|s|m)?\s*$`, yet `Timeout::from_str` rejects it, because a
missing unit suffix is only accepted when the magnitude is zero. -/
theorem c8_bare_magnitude_counterexample :
    matchesTimeoutPattern "10" = true ∧ timeoutFromStr "10" = none := by
  constructor
  · decide
  · decide

/-- C8 (amended): every string the timeout parser accepts matches the
pattern `^\s*(\d+)(ms|s|m)?\s*$`, and the default `10s` is accepted (as
10000 ms); but not every matching string is accepted: a bare magnitude
without unit suffix is accepted only when it is zero, so `0` parses and
`10` is rejected. -/
theorem c8_timeout_parse (s : String) (d : Nat)
    (h : timeoutFromStr s = some d) :
    matchesTimeoutPattern s = true ∧
    timeoutFromStr "10s" = some 10000 ∧
    timeoutFromStr "0" = some 0 ∧
    timeoutFromStr "10" = none := by
  refine ⟨?_, by decide, by decide, by decide⟩
  unfold timeoutFromStr at h
  unfold matchesTimeoutPattern
  by_cases h1 : (timeoutMag s).isEmpty
  · rw [if_pos h1] at h
    exact absurd h (by simp)
  · rw [if_neg h1] at h
    by_cases h2 : (takeUnit (timeoutRest s)).2.all wsChar
    · simp [h1, h2]
    · rw [if_neg h2] at h
      exact absurd h (by simp)

/-- Witness for C8 (amended) at the accepted default `10s`. -/
theorem c8_timeout_parse_witness :
    matchesTimeoutPattern "10s" = true ∧
    timeoutFromStr "10s" = some 10000 ∧
    timeoutFromStr "0" = some 0 ∧
    timeoutFromStr "10" = none :=
  c8_timeout_parse "10s" 10000 (by decide)

theorem fanout_inflight_le (limit : Nat) (batch : List String) (st : FanoutState)
    (h : FanoutReachable limit batch st) : st.inflight.length ≤ limit := by
  induction h with
  | refl => simp
  | tail _ step ih =>
    cases step with
    | start n rest fl c hlt => simpa using hlt
    | finish p fl₁ n fl₂ c =>
      simp only [List.length_append, List.length_cons] at ih ⊢
      omega

/-- C9: during delete fan-out with the default concurrency limit 10, every
state reachable in an execution over any batch — in particular a batch of
25 identities — has at most 10 delete calls simultaneously outstanding. -/
theorem c9_fanout_bound (batch : List String) (st : FanoutState)
    (h : FanoutReachable 10 batch st) : st.inflight.length ≤ 10 :=
  fanout_inflight_le 10 batch st h

/-- A concrete batch of 25 pod identities. -/
def batch25 : List String :=
  ["p01", "p02", "p03", "p04", "p05", "p06", "p07", "p08", "p09", "p10",
   "p11", "p12", "p13", "p14", "p15", "p16", "p17", "p18", "p19", "p20",
   "p21", "p22", "p23", "p24", "p25"]

/-- Witness for C9: after one submission step over the batch of 25, the
reached state has at most 10 calls outstanding. -/
theorem c9_fanout_bound_witness :
    FanoutReachable 10 batch25
      ⟨["p02", "p03", "p04", "p05", "p06", "p07", "p08", "p09", "p10",
        "p11", "p12", "p13", "p14", "p15", "p16", "p17", "p18", "p19", "p20",
        "p21", "p22", "p23", "p24", "p25"], ["p01"], []⟩ ∧
    (["p01"] : List String).length ≤ 10 := by
  have hstep : FanoutReachable 10 batch25
      ⟨["p02", "p03", "p04", "p05", "p06", "p07", "p08", "p09", "p10",
        "p11", "p12", "p13", "p14", "p15", "p16", "p17", "p18", "p19", "p20",
        "p21", "p22", "p23", "p24", "p25"], ["p01"], []⟩ :=
    Relation.ReflTransGen.tail Relation.ReflTransGen.refl
      (FanoutStep.start "p01" _ [] [] (by norm_num))
  exact ⟨hstep, c9_fanout_bound batch25 _ hstep⟩

end Shopvac
